import Mathlib

/-!
Verification of the `Model` scene-graph node declared in
`src/engine/model/model.h` of huangxiaobo/ToyEngine.

The repository fragment contains only the class declaration: the fields
`mesh`, `effect`, `position`, `Rotation`, `Scale`, `matrix` and the member
signatures `Init`, `SetMesh`, `SetEffect`, `Draw`.  The member bodies are
not part of the sources, so every operation below is modelled from the
specification text.  Scalars of `QVector3D` / `QMatrix4x4` are embedded as
exact rationals; the trigonometric functions needed by the (otherwise
unspecified) Euler rotation are abstracted as a `Trig` oracle.
-/

/-- A 3-component vector, embedding `QVector3D` with exact rational
coordinates. -/
structure Vec3 where
  x : Rat
  y : Rat
  z : Rat
deriving DecidableEq, Repr

def Vec3.zero : Vec3 := ⟨0, 0, 0⟩

def Vec3.one : Vec3 := ⟨1, 1, 1⟩

/-- A 4x4 matrix, embedding `QMatrix4x4` with exact rational entries,
indexed row first. -/
abbrev Mat4 : Type := Fin 4 → Fin 4 → Rat

def Mat4.id : Mat4 := fun i j => if i = j then 1 else 0

def Mat4.mul (A B : Mat4) : Mat4 :=
  fun i j => A i 0 * B 0 j + A i 1 * B 1 j + A i 2 * B 2 j + A i 3 * B 3 j

/-- Build a `Mat4` from its sixteen entries, row by row. -/
def mk4 (a b c d e f g h i j k l m n o p : Rat) : Mat4 :=
  fun r s =>
    if r = 0 then (if s = 0 then a else if s = 1 then b else if s = 2 then c else d)
    else if r = 1 then (if s = 0 then e else if s = 1 then f else if s = 2 then g else h)
    else if r = 2 then (if s = 0 then i else if s = 1 then j else if s = 2 then k else l)
    else (if s = 0 then m else if s = 1 then n else if s = 2 then o else p)

/-- Translation matrix: puts the vector into the fourth column. -/
def translateMat (v : Vec3) : Mat4 :=
  mk4 1 0 0 v.x 0 1 0 v.y 0 0 1 v.z 0 0 0 1

/-- Scale matrix: the vector on the diagonal. -/
def scaleMat (v : Vec3) : Mat4 :=
  mk4 v.x 0 0 0 0 v.y 0 0 0 0 v.z 0 0 0 0 1

/-- Rotation about the x axis, given the cosine and sine of the angle. -/
def rotXmat (c s : Rat) : Mat4 :=
  mk4 1 0 0 0 0 c (-s) 0 0 s c 0 0 0 0 1

/-- Rotation about the y axis, given the cosine and sine of the angle. -/
def rotYmat (c s : Rat) : Mat4 :=
  mk4 c 0 s 0 0 1 0 0 (-s) 0 c 0 0 0 0 1

/-- Rotation about the z axis, given the cosine and sine of the angle. -/
def rotZmat (c s : Rat) : Mat4 :=
  mk4 c (-s) 0 0 s c 0 0 0 0 1 0 0 0 0 1

/-- An oracle supplying cosine and sine on the embedded scalars.  The spec
leaves units and axis conventions of `Rotation` open, so the development is
parametric in the trigonometric functions; claims about the zero rotation
only assume `cos 0 = 1` and `sin 0 = 0`. -/
structure Trig where
  cos : Rat → Rat
  sin : Rat → Rat

/-- Modelled from the spec: the Euler rotation matrix of the `Rotation`
vector (axis order unspecified by the source; fixed here as z∘y∘x). -/
def rotationMat (t : Trig) (r : Vec3) : Mat4 :=
  Mat4.mul (rotZmat (t.cos r.z) (t.sin r.z))
    (Mat4.mul (rotYmat (t.cos r.y) (t.sin r.y)) (rotXmat (t.cos r.x) (t.sin r.x)))

/-- Modelled from the spec: the world transform composed from `position`,
`Rotation` and `Scale` (translation ∘ rotation ∘ scale). -/
def composeWorld (t : Trig) (p r s : Vec3) : Mat4 :=
  Mat4.mul (translateMat p) (Mat4.mul (rotationMat t r) (scaleMat s))

/-- External collaborator `Mesh`: only the identity of the referenced
geometry matters to `Model`. -/
structure Mesh where
  mid : Nat
deriving DecidableEq, Repr

/-- External collaborator `Technique`: only the identity of the referenced
pipeline matters to `Model`. -/
structure Technique where
  tid : Nat
deriving DecidableEq, Repr

/-- The `Model` node of `src/engine/model/model.h`: non-owning, possibly
null references to a `Mesh` and a `Technique`, the transform fields, and
the cached world matrix.  Field names follow the source. -/
structure Model where
  mesh : Option Mesh
  effect : Option Technique
  position : Vec3
  Rotation : Vec3
  Scale : Vec3
  matrix : Mat4

/-- Modelled from the spec (body absent from src): `Init` sets the
defaults — identity world matrix, zero position, zero rotation, unit
scale.  The spec lists only these four fields, so the collaborator
references are left untouched. -/
def Model.Init (m : Model) : Model :=
  { m with position := Vec3.zero, Rotation := Vec3.zero,
           Scale := Vec3.one, matrix := Mat4.id }

/-- Modelled from the spec (body absent from src): rebinds the non-owning
geometry reference; null is accepted and nothing is validated. -/
def Model.SetMesh (m : Model) (g : Option Mesh) : Model :=
  { m with mesh := g }

/-- Modelled from the spec (body absent from src): rebinds the non-owning
pipeline reference; null is accepted and nothing is validated. -/
def Model.SetEffect (m : Model) (t : Option Technique) : Model :=
  { m with effect := t }

/-- The observable rendering events a `Draw` call can issue. -/
inductive Event where
  | activate (t : Technique)
  | setUniforms (world view proj : Mat4) (camera : Vec3) (elapsed : Int)
  | submit (g : Mesh)

/-- The outcome a `Draw` call reports. -/
inductive DrawOutcome where
  | ok
  | noPipeline
  | noGeometry
deriving DecidableEq, Repr

/-- Modelled from the spec (body absent from src): `Draw` resolves the
world matrix from the current `position`/`Rotation`/`Scale` (composed with
the parent matrix for the uploaded uniform), then activates the bound
`Technique`, uploads the uniforms, and has the bound `Mesh` submit its
geometry.  An unset `effect` yields the `noPipeline` no-op, an unset
`mesh` the `noGeometry` no-op; neither issues any event.  Returns the
updated state, the event trace in order, and the outcome. -/
def Model.Draw (tr : Trig) (m : Model) (elapsed : Int)
    (projection view parentMatrix : Mat4) (camera : Vec3) :
    Model × List Event × DrawOutcome :=
  let local_ := composeWorld tr m.position m.Rotation m.Scale
  let world := Mat4.mul parentMatrix local_
  let m' := { m with matrix := local_ }
  match m.effect with
  | none => (m', [], DrawOutcome.noPipeline)
  | some t =>
    match m.mesh with
    | none => (m', [], DrawOutcome.noGeometry)
    | some g =>
      (m', [Event.activate t,
            Event.setUniforms world view projection camera elapsed,
            Event.submit g], DrawOutcome.ok)

def Event.isActivate : Event → Bool
  | Event.activate _ => true
  | _ => false

def Event.isUniform : Event → Bool
  | Event.setUniforms _ _ _ _ _ => true
  | _ => false

def Event.isSubmit : Event → Bool
  | Event.submit _ => true
  | _ => false

/-- Number of pipeline activations in a trace. -/
def countActivate (l : List Event) : Nat := l.countP Event.isActivate

/-- Number of uniform uploads in a trace. -/
def countUniform (l : List Event) : Nat := l.countP Event.isUniform

/-- Number of geometry submissions in a trace. -/
def countSubmit (l : List Event) : Nat := l.countP Event.isSubmit

/-- The meshes submitted by a trace, in order. -/
def submittedMeshes : List Event → List Mesh
  | [] => []
  | Event.submit g :: rest => g :: submittedMeshes rest
  | _ :: rest => submittedMeshes rest

/-- The elapsed-time value carried by the first uniform upload of a trace,
if any. -/
def uniformElapsed : List Event → Option Int
  | [] => none
  | Event.setUniforms _ _ _ _ e :: _ => some e
  | _ :: rest => uniformElapsed rest

/-- Claim C1: for the call sequence Init(); SetMesh(m); SetEffect(t);
Draw(...) with non-null m and t, a single Draw activates the bound
Technique exactly once, uploads the uniforms exactly once, and submits the
bound Mesh exactly once, in exactly that order — the trace is precisely
activation, uniform upload, submission. -/
theorem c1_draw_sequence (tr : Trig) (m0 : Model) (g : Mesh) (t : Technique)
    (e : Int) (p v par : Mat4) (c : Vec3) :
    ((((m0.Init).SetMesh (some g)).SetEffect (some t)).Draw tr e p v par c).2.1 =
      [Event.activate t,
       Event.setUniforms (Mat4.mul par (composeWorld tr Vec3.zero Vec3.zero Vec3.one)) v p c e,
       Event.submit g] ∧
    countActivate ((((m0.Init).SetMesh (some g)).SetEffect (some t)).Draw tr e p v par c).2.1 = 1 ∧
    countUniform ((((m0.Init).SetMesh (some g)).SetEffect (some t)).Draw tr e p v par c).2.1 = 1 ∧
    countSubmit ((((m0.Init).SetMesh (some g)).SetEffect (some t)).Draw tr e p v par c).2.1 = 1 :=
  ⟨rfl, rfl, rfl, rfl⟩

/-- Claim C4: after Init() the world matrix is the identity, position is
the zero vector, rotation is the zero vector and scale is the unit vector;
Init takes no further inputs and is idempotent. -/
theorem c4_init_defaults (m : Model) :
    (m.Init).matrix = Mat4.id ∧ (m.Init).position = Vec3.zero ∧
    (m.Init).Rotation = Vec3.zero ∧ (m.Init).Scale = Vec3.one ∧
    (m.Init).Init = m.Init :=
  ⟨rfl, rfl, rfl, rfl, rfl⟩

/-- Claim C5: Draw never observes a stale matrix — its behaviour is
independent of the incoming matrix field, and the matrix it leaves behind
is the composition of the current position, rotation and scale. -/
theorem c5_draw_matrix_composed (tr : Trig) (m : Model) (M : Mat4)
    (e : Int) (p v par : Mat4) (c : Vec3) :
    Model.Draw tr { m with matrix := M } e p v par c = Model.Draw tr m e p v par c ∧
    (Model.Draw tr m e p v par c).1.matrix =
      composeWorld tr m.position m.Rotation m.Scale := by
  cases m with
  | mk mes eff pos rot sc mat =>
    cases eff with
    | none => exact ⟨rfl, rfl⟩
    | some t =>
      cases mes with
      | none => exact ⟨rfl, rfl⟩
      | some g => exact ⟨rfl, rfl⟩

/-- Claim C8: SetMesh and SetEffect are idempotent, may be repeated, accept
null, and only the most recent binding is kept and used by Draw. -/
theorem c8_set_rebind (tr : Trig) (m : Model) (a b : Option Mesh)
    (x y : Option Technique) (g : Mesh) (t : Technique)
    (e : Int) (p v par : Mat4) (c : Vec3) :
    (m.SetMesh a).SetMesh a = m.SetMesh a ∧
    (m.SetEffect x).SetEffect x = m.SetEffect x ∧
    (m.SetMesh a).SetMesh b = m.SetMesh b ∧
    (m.SetEffect x).SetEffect y = m.SetEffect y ∧
    (m.SetMesh a).mesh = a ∧ (m.SetEffect x).effect = x ∧
    (m.SetMesh none).mesh = none ∧ (m.SetEffect none).effect = none ∧
    submittedMeshes
      (((((m.SetMesh a).SetMesh (some g)).SetEffect x).SetEffect (some t)).Draw
        tr e p v par c).2.1 = [g] :=
  ⟨rfl, rfl, rfl, rfl, rfl, rfl, rfl, rfl, rfl⟩

/-- Claim C9: SetMesh changes only the mesh field and SetEffect only the
effect field; every other field, including the other collaborator
reference, is unchanged. -/
theorem c9_set_frame (m : Model) (a : Option Mesh) (x : Option Technique) :
    (m.SetMesh a).mesh = a ∧ (m.SetMesh a).effect = m.effect ∧
    (m.SetMesh a).position = m.position ∧ (m.SetMesh a).Rotation = m.Rotation ∧
    (m.SetMesh a).Scale = m.Scale ∧ (m.SetMesh a).matrix = m.matrix ∧
    (m.SetEffect x).effect = x ∧ (m.SetEffect x).mesh = m.mesh ∧
    (m.SetEffect x).position = m.position ∧ (m.SetEffect x).Rotation = m.Rotation ∧
    (m.SetEffect x).Scale = m.Scale ∧ (m.SetEffect x).matrix = m.matrix :=
  ⟨rfl, rfl, rfl, rfl, rfl, rfl, rfl, rfl, rfl, rfl, rfl, rfl⟩

/-- Claim C2: Draw with an unset mesh issues no events, reports the
defined noGeometry outcome (noPipeline when the effect is also unset), and
leaves the state intact except for the freshly composed matrix. -/
theorem c2_draw_no_mesh (tr : Trig) (m : Model) (e : Int) (p v par : Mat4)
    (c : Vec3) (h : m.mesh = none) :
    (Model.Draw tr m e p v par c).2.2 =
      (match m.effect with
       | none => DrawOutcome.noPipeline
       | some _ => DrawOutcome.noGeometry) ∧
    (Model.Draw tr m e p v par c).2.1 = [] ∧
    (Model.Draw tr m e p v par c).1 =
      { m with matrix := composeWorld tr m.position m.Rotation m.Scale } := by
  cases m with
  | mk mes eff pos rot sc mat =>
    change mes = none at h
    subst h
    cases eff with
    | none => exact ⟨rfl, rfl, rfl⟩
    | some t => exact ⟨rfl, rfl, rfl⟩

/-- Claim C3: Draw with an unset effect reports noPipeline, issues no
events — in particular no mesh submission — and leaves the state intact
except for the freshly composed matrix. -/
theorem c3_draw_no_effect (tr : Trig) (m : Model) (e : Int) (p v par : Mat4)
    (c : Vec3) (h : m.effect = none) :
    (Model.Draw tr m e p v par c).2.2 = DrawOutcome.noPipeline ∧
    (Model.Draw tr m e p v par c).2.1 = [] ∧
    countSubmit (Model.Draw tr m e p v par c).2.1 = 0 ∧
    (Model.Draw tr m e p v par c).1 =
      { m with matrix := composeWorld tr m.position m.Rotation m.Scale } := by
  cases m with
  | mk mes eff pos rot sc mat =>
    change eff = none at h
    subst h
    exact ⟨rfl, rfl, rfl, rfl⟩

/-- Claim C6: with position (1,0,0), zero rotation and unit scale, the
composed world matrix has translation component (1,0,0) and identity
linear part, for any trigonometric oracle with cos 0 = 1 and sin 0 = 0. -/
theorem c6_compose_identity (tr : Trig) (h1 : tr.cos 0 = 1)
    (h2 : tr.sin 0 = 0) :
    (composeWorld tr ⟨1, 0, 0⟩ Vec3.zero Vec3.one 0 3 = 1 ∧
     composeWorld tr ⟨1, 0, 0⟩ Vec3.zero Vec3.one 1 3 = 0 ∧
     composeWorld tr ⟨1, 0, 0⟩ Vec3.zero Vec3.one 2 3 = 0) ∧
    (composeWorld tr ⟨1, 0, 0⟩ Vec3.zero Vec3.one 0 0 = 1 ∧
     composeWorld tr ⟨1, 0, 0⟩ Vec3.zero Vec3.one 0 1 = 0 ∧
     composeWorld tr ⟨1, 0, 0⟩ Vec3.zero Vec3.one 0 2 = 0 ∧
     composeWorld tr ⟨1, 0, 0⟩ Vec3.zero Vec3.one 1 0 = 0 ∧
     composeWorld tr ⟨1, 0, 0⟩ Vec3.zero Vec3.one 1 1 = 1 ∧
     composeWorld tr ⟨1, 0, 0⟩ Vec3.zero Vec3.one 1 2 = 0 ∧
     composeWorld tr ⟨1, 0, 0⟩ Vec3.zero Vec3.one 2 0 = 0 ∧
     composeWorld tr ⟨1, 0, 0⟩ Vec3.zero Vec3.one 2 1 = 0 ∧
     composeWorld tr ⟨1, 0, 0⟩ Vec3.zero Vec3.one 2 2 = 1) := by
  have hrot : rotationMat tr Vec3.zero = Mat4.id := by
    show Mat4.mul (rotZmat (tr.cos 0) (tr.sin 0))
        (Mat4.mul (rotYmat (tr.cos 0) (tr.sin 0)) (rotXmat (tr.cos 0) (tr.sin 0))) =
      Mat4.id
    rw [h1, h2]
    funext i j
    fin_cases i <;> fin_cases j <;>
      simp [Mat4.mul, Mat4.id, rotXmat, rotYmat, rotZmat, mk4]
  have hM : composeWorld tr ⟨1, 0, 0⟩ Vec3.zero Vec3.one =
      mk4 1 0 0 1 0 1 0 0 0 0 1 0 0 0 0 1 := by
    show Mat4.mul (translateMat ⟨1, 0, 0⟩)
        (Mat4.mul (rotationMat tr Vec3.zero) (scaleMat Vec3.one)) = _
    rw [hrot]
    funext i j
    fin_cases i <;> fin_cases j <;>
      simp [Mat4.mul, Mat4.id, translateMat, scaleMat, Vec3.one, mk4]
  rw [hM]
  exact ⟨⟨rfl, rfl, rfl⟩, rfl, rfl, rfl, rfl, rfl, rfl, rfl, rfl, rfl⟩

/-- Claim C7: each Draw forwards its elapsed argument unchanged to the
uniform upload, and the state Draw leaves behind does not depend on the
elapsed value — there is no internal accumulation of elapsed time. -/
theorem c7_elapsed_forwarded (tr : Trig) (m : Model) (g : Mesh)
    (t : Technique) (e1 e2 : Int) (p v par : Mat4) (c : Vec3)
    (hm : m.mesh = some g) (ht : m.effect = some t) :
    uniformElapsed (Model.Draw tr m e1 p v par c).2.1 = some e1 ∧
    (Model.Draw tr m e1 p v par c).1 = (Model.Draw tr m e2 p v par c).1 ∧
    uniformElapsed
      (Model.Draw tr (Model.Draw tr m e1 p v par c).1 e2 p v par c).2.1 =
      some e2 := by
  cases m with
  | mk mes eff pos rot sc mat =>
    change mes = some g at hm
    change eff = some t at ht
    subst hm
    subst ht
    exact ⟨rfl, rfl, rfl⟩

/-- Claim C10: Draw is deterministic — equal states and equal arguments
give the same resulting state, the same event trace and the same
outcome. -/
theorem c10_draw_deterministic (tr : Trig) (m1 m2 : Model) (e1 e2 : Int)
    (p1 p2 v1 v2 par1 par2 : Mat4) (c1 c2 : Vec3)
    (hm : m1 = m2) (he : e1 = e2) (hp : p1 = p2) (hv : v1 = v2)
    (hpar : par1 = par2) (hc : c1 = c2) :
    Model.Draw tr m1 e1 p1 v1 par1 c1 = Model.Draw tr m2 e2 p2 v2 par2 c2 := by
  subst hm
  subst he
  subst hp
  subst hv
  subst hpar
  subst hc
  rfl

/-- The degenerate trigonometric oracle used by the concrete witnesses:
cos is constantly 1 and sin constantly 0. -/
def trig0 : Trig := ⟨fun _ => 1, fun _ => 0⟩

/-- A concrete model with no mesh but a bound technique. -/
def model2 : Model :=
  { mesh := none, effect := some ⟨0⟩, position := Vec3.zero,
    Rotation := Vec3.zero, Scale := Vec3.one, matrix := Mat4.id }

/-- A concrete model with a bound mesh but no technique. -/
def model3 : Model :=
  { mesh := some ⟨4⟩, effect := none, position := Vec3.zero,
    Rotation := Vec3.zero, Scale := Vec3.one, matrix := Mat4.id }

/-- A concrete fully bound model. -/
def model7 : Model :=
  { mesh := some ⟨1⟩, effect := some ⟨2⟩, position := Vec3.zero,
    Rotation := Vec3.zero, Scale := Vec3.one, matrix := Mat4.id }

/-- Witness for claim C2 at a concrete null-mesh model. -/
theorem c2_draw_no_mesh_witness :
    model2.mesh = none ∧
    ((Model.Draw trig0 model2 0 Mat4.id Mat4.id Mat4.id Vec3.zero).2.2 =
      (match model2.effect with
       | none => DrawOutcome.noPipeline
       | some _ => DrawOutcome.noGeometry) ∧
    (Model.Draw trig0 model2 0 Mat4.id Mat4.id Mat4.id Vec3.zero).2.1 = [] ∧
    (Model.Draw trig0 model2 0 Mat4.id Mat4.id Mat4.id Vec3.zero).1 =
      { model2 with
          matrix := composeWorld trig0 model2.position model2.Rotation model2.Scale }) :=
  ⟨rfl, c2_draw_no_mesh trig0 model2 0 Mat4.id Mat4.id Mat4.id Vec3.zero rfl⟩

/-- Witness for claim C3 at a concrete null-effect model. -/
theorem c3_draw_no_effect_witness :
    model3.effect = none ∧
    ((Model.Draw trig0 model3 0 Mat4.id Mat4.id Mat4.id Vec3.zero).2.2 =
      DrawOutcome.noPipeline ∧
    (Model.Draw trig0 model3 0 Mat4.id Mat4.id Mat4.id Vec3.zero).2.1 = [] ∧
    countSubmit (Model.Draw trig0 model3 0 Mat4.id Mat4.id Mat4.id Vec3.zero).2.1 = 0 ∧
    (Model.Draw trig0 model3 0 Mat4.id Mat4.id Mat4.id Vec3.zero).1 =
      { model3 with
          matrix := composeWorld trig0 model3.position model3.Rotation model3.Scale }) :=
  ⟨rfl, c3_draw_no_effect trig0 model3 0 Mat4.id Mat4.id Mat4.id Vec3.zero rfl⟩

/-- Witness for claim C6 at the concrete oracle trig0. -/
theorem c6_compose_identity_witness :
    trig0.cos 0 = 1 ∧ trig0.sin 0 = 0 ∧
    ((composeWorld trig0 ⟨1, 0, 0⟩ Vec3.zero Vec3.one 0 3 = 1 ∧
      composeWorld trig0 ⟨1, 0, 0⟩ Vec3.zero Vec3.one 1 3 = 0 ∧
      composeWorld trig0 ⟨1, 0, 0⟩ Vec3.zero Vec3.one 2 3 = 0) ∧
     (composeWorld trig0 ⟨1, 0, 0⟩ Vec3.zero Vec3.one 0 0 = 1 ∧
      composeWorld trig0 ⟨1, 0, 0⟩ Vec3.zero Vec3.one 0 1 = 0 ∧
      composeWorld trig0 ⟨1, 0, 0⟩ Vec3.zero Vec3.one 0 2 = 0 ∧
      composeWorld trig0 ⟨1, 0, 0⟩ Vec3.zero Vec3.one 1 0 = 0 ∧
      composeWorld trig0 ⟨1, 0, 0⟩ Vec3.zero Vec3.one 1 1 = 1 ∧
      composeWorld trig0 ⟨1, 0, 0⟩ Vec3.zero Vec3.one 1 2 = 0 ∧
      composeWorld trig0 ⟨1, 0, 0⟩ Vec3.zero Vec3.one 2 0 = 0 ∧
      composeWorld trig0 ⟨1, 0, 0⟩ Vec3.zero Vec3.one 2 1 = 0 ∧
      composeWorld trig0 ⟨1, 0, 0⟩ Vec3.zero Vec3.one 2 2 = 1)) :=
  ⟨rfl, rfl, c6_compose_identity trig0 rfl rfl⟩

/-- Witness for claim C7 at a concrete fully bound model with elapsed
values 5 and 9. -/
theorem c7_elapsed_forwarded_witness :
    model7.mesh = some ⟨1⟩ ∧ model7.effect = some ⟨2⟩ ∧
    (uniformElapsed (Model.Draw trig0 model7 5 Mat4.id Mat4.id Mat4.id Vec3.zero).2.1 =
      some 5 ∧
    (Model.Draw trig0 model7 5 Mat4.id Mat4.id Mat4.id Vec3.zero).1 =
      (Model.Draw trig0 model7 9 Mat4.id Mat4.id Mat4.id Vec3.zero).1 ∧
    uniformElapsed
      (Model.Draw trig0 (Model.Draw trig0 model7 5 Mat4.id Mat4.id Mat4.id Vec3.zero).1
        9 Mat4.id Mat4.id Mat4.id Vec3.zero).2.1 = some 9) :=
  ⟨rfl, rfl,
   c7_elapsed_forwarded trig0 model7 ⟨1⟩ ⟨2⟩ 5 9 Mat4.id Mat4.id Mat4.id
     Vec3.zero rfl rfl⟩

/-- Witness for claim C10 at concrete equal inputs. -/
theorem c10_draw_deterministic_witness :
    model7.SetMesh (some ⟨1⟩) = model7 ∧
    Model.Draw trig0 (model7.SetMesh (some ⟨1⟩)) 3 Mat4.id Mat4.id Mat4.id Vec3.zero =
      Model.Draw trig0 model7 3 Mat4.id Mat4.id Mat4.id Vec3.zero :=
  ⟨rfl,
   c10_draw_deterministic trig0 (model7.SetMesh (some ⟨1⟩)) model7 3 3
     Mat4.id Mat4.id Mat4.id Mat4.id Mat4.id Mat4.id Vec3.zero Vec3.zero
     rfl rfl rfl rfl rfl rfl⟩
